import Mathlib

/-!
Verification of the soaska/proxy egress-authorization and traffic-accounting
core: a shallow embedding of `whitelist.go`, the `Dialer` callback of
`main.go`, and the `internal/stats` collector and tracker, with theorems
settling the frozen claims about them.

Conventions of the embedding:
* IPv4 addresses are 32-bit natural numbers; timestamps are integer seconds.
* Go maps used as sets become duplicate-free insertion lists; SQL tables
  become lists of record structures; single-statement SQL mutations become
  pure functions on those lists.
* I/O results (DNS resolution, SQL insert success, GeoIP lookups, byte
  counts returned by the wrapped transport) are parameters of the functions
  that consume them.
-/

namespace Proxy

/-! ## Whitelist data model (whitelist.go) -/

/-- A parsed CIDR range, as produced by net.ParseCIDR: the masked 32-bit
base address of the network and the prefix length. -/
structure IPNet where
  base : Nat
  prefixLen : Nat
deriving DecidableEq, Repr

/-- Keep only the top `p` bits of a 32-bit address: the effect of
ip.Mask(CIDRMask(p, 32)), which zeroes the low 32 - p bits. -/
def maskAddr (p : Nat) (ip : Nat) : Nat :=
  ip / 2 ^ (32 - p) * 2 ^ (32 - p)

/-- net.IPNet.Contains: the candidate address masked with the network mask
equals the network base address (ParseCIDR stores the base already masked). -/
def IPNet.containsIP (n : IPNet) (ip : Nat) : Bool :=
  maskAddr n.prefixLen ip == n.base

/-- The shared mutable whitelist state of whitelist.go: the resolved-IP
string set (map `whitelist`) and the parsed range list (`ipRanges`). -/
structure WhitelistState where
  whitelist : List String
  ipRanges : List IPNet
deriving DecidableEq, Repr

/-- isIPInRange from whitelist.go: scan the current range list. -/
def isIPInRange (st : WhitelistState) (ip : Nat) : Bool :=
  st.ipRanges.any fun n => n.containsIP ip

/-- strings.EqualFold restricted to ASCII case folding: both strings are
lowercased character by character and compared. -/
def equalFold (s t : String) : Bool :=
  s.data.map Char.toLower == t.data.map Char.toLower

/-- Build a 32-bit address from dotted-quad components. -/
def ipv4 (a b c d : Nat) : Nat :=
  ((a * 256 + b) * 256 + c) * 256 + d

/-! ## Dial authorization (main.go Dialer callback) -/

/-- The whitelist check of the Dialer in main.go: first the resolved-IP map
keyed by ip.String(), then isIPInRange, then a loop comparing the original
host case-insensitively against every configured whitelist entry, each
stage consulted only if the previous ones said no. -/
def dialerWhitelistOk (st : WhitelistState) (cfgWhitelist : List String)
    (ipStr : String) (ip : Nat) (host : String) : Bool :=
  let ok := st.whitelist.contains ipStr
  let ok := if !ok then isIPInRange st ip else ok
  let ok := if !ok then cfgWhitelist.any (fun whost => equalFold host whost) else ok
  ok

/-- Observable side effects of one Dialer invocation. -/
inductive DialEffect where
  | dialAttempt (network : String) (addr : String)
  | recordInsert
  | counterChange
deriving DecidableEq, Repr

/-- The value a Dialer invocation returns: an established connection or an
error carrying its message. -/
inductive DialResult where
  | conn
  | err (msg : String)
deriving DecidableEq, Repr

/-- Result and side-effect trace of one Dialer invocation. -/
structure DialOutcome where
  result : DialResult
  effects : List DialEffect
deriving DecidableEq, Repr

/-- The Dialer callback of main.go. SplitHostPort and ResolveIPAddr are
network inputs, passed as their results: `splitRes` is the host part when
the split succeeds, `resolveRes` is (ip.String(), ip) when "ip4" resolution
succeeds. `dialOk` is whether the outbound DialContext succeeds and
`statsEnabled` whether a stats collector is attached; the random source
address draw is irrelevant to the authorization result and elided. -/
def dialer (st : WhitelistState) (cfgWhitelist : List String)
    (splitRes : Option String) (resolveRes : Option (String × Nat))
    (network addr : String) (dialOk : Bool) (statsEnabled : Bool) : DialOutcome :=
  match splitRes with
  | none => ⟨.err "failed to split host and port", []⟩
  | some host =>
    match resolveRes with
    | none => ⟨.err "failed to resolve IP", []⟩
    | some (ipStr, ip) =>
      if dialerWhitelistOk st cfgWhitelist ipStr ip host then
        if dialOk then
          ⟨.conn, .dialAttempt network addr ::
            (if statsEnabled then [.recordInsert, .counterChange] else [])⟩
        else
          ⟨.err "dial failed", [.dialAttempt network addr]⟩
      else
        ⟨.err ("ip " ++ ipStr ++ " is not in the whitelist"), []⟩

/-! ## Free-bind socket control (main.go Dialer.Control) -/

/-- The Control callback of the net.Dialer in main.go. On a non-Linux GOOS
it returns nil immediately. On Linux it runs setsockopt(IPPROTO_IP,
IP_FREEBIND, 1) inside RawConn.Control; `rawConnErr` is the error of
RawConn.Control itself and `operr` the error of the setsockopt call; the
callback returns rawConnErr if set, otherwise operr. The dial proceeds
exactly when the callback returns none. -/
def dialerControl (goos : String) (rawConnErr : Option String)
    (operr : Option String) : Option String :=
  if goos != "linux" then none
  else
    match rawConnErr with
    | some e => some e
    | none => operr

/-! ## Whitelist refresh as a sequence of atomic critical sections
(checkIPs / checkHostIPs in whitelist.go) -/

/-- One lock-protected mutation of the shared whitelist state during a
refresh cycle: checkIPs clears the range list under rangeMutex, then each
checkHostIPs goroutine either appends one parsed range under rangeMutex or
inserts one resolved IP string under wlMutex. -/
inductive RefreshStep where
  | clearRanges
  | addRange (n : IPNet)
  | addIP (s : String)
deriving DecidableEq, Repr

/-- Apply one critical section to the shared state. -/
def applyStep (st : WhitelistState) : RefreshStep → WhitelistState
  | .clearRanges => { st with ipRanges := [] }
  | .addRange n => { st with ipRanges := st.ipRanges ++ [n] }
  | .addIP s =>
    { st with whitelist := if st.whitelist.contains s then st.whitelist else st.whitelist ++ [s] }

/-- All states a concurrent reader can observe while a sequence of critical
sections runs: the state before each step and after the last. -/
def traceStates (st : WhitelistState) : List RefreshStep → List WhitelistState
  | [] => [st]
  | step :: rest => st :: traceStates (applyStep st step) rest

/-- The state after running all steps of a cycle. -/
def runSteps (st : WhitelistState) (steps : List RefreshStep) : WhitelistState :=
  steps.foldl applyStep st

/-! ## Persistent store data model (internal/database/db.go schema) -/

/-- One row of the connections table. `created_at` is omitted: nothing in
the core reads or writes it after the default fires. -/
structure ConnRecord where
  id : Nat
  client_ip : String
  target_addr : String
  country : String
  city : String
  bytes_in : Int
  bytes_out : Int
  connected_at : Int
  disconnected_at : Option Int
  duration : Option Int
deriving DecidableEq, Repr

/-- The singleton server_stats row (id = 1); timestamp columns elided. -/
structure ServerStats where
  total_connections : Int
  total_bytes_in : Int
  total_bytes_out : Int
deriving DecidableEq, Repr

/-- One row of the geo_stats table, keyed by country. -/
structure GeoRow where
  country : String
  country_name : String
  connections : Int
  total_bytes : Int
deriving DecidableEq, Repr

/-- The database: the connections table with its AUTOINCREMENT counter, the
optional server_stats singleton row, and the geo_stats table. -/
structure DB where
  connections : List ConnRecord
  nextId : Nat
  server_stats : Option ServerStats
  geo_stats : List GeoRow
deriving DecidableEq, Repr

/-- total_connections as read back from server_stats (0 when the row is
absent, in which case every UPDATE is a no-op as well). -/
def DB.totalConnections (db : DB) : Int :=
  match db.server_stats with
  | some s => s.total_connections
  | none => 0

/-- total_bytes_in as read back from server_stats. -/
def DB.totalBytesIn (db : DB) : Int :=
  match db.server_stats with
  | some s => s.total_bytes_in
  | none => 0

/-- total_bytes_out as read back from server_stats. -/
def DB.totalBytesOut (db : DB) : Int :=
  match db.server_stats with
  | some s => s.total_bytes_out
  | none => 0

/-- Sum of the per-country connection counts over the geo_stats table. -/
def DB.geoConnSum (db : DB) : Int :=
  (db.geo_stats.map fun r => r.connections).sum

/-! ## GeoIP collaborator (internal/geoip) -/

/-- The static code-to-name table of geoip.GetCountryName. -/
def countryNames : List (String × String) :=
  [("RU", "Russia"), ("US", "United States"), ("DE", "Germany"),
   ("GB", "United Kingdom"), ("FR", "France"), ("NL", "Netherlands"),
   ("CN", "China"), ("JP", "Japan"), ("KR", "South Korea"),
   ("IN", "India"), ("BR", "Brazil"), ("CA", "Canada"),
   ("AU", "Australia"), ("IT", "Italy"), ("ES", "Spain"),
   ("PL", "Poland"), ("UA", "Ukraine"), ("TR", "Turkey"),
   ("SE", "Sweden"), ("NO", "Norway")]

/-- geoip.Service.GetCountryName: table lookup, falling back to the code. -/
def getCountryName (code : String) : String :=
  match countryNames.lookup code with
  | some n => n
  | none => code

/-! ## Stats collector (internal/stats/collector.go) -/

/-- StatsCollector state: the database handle's contents, whether a GeoIP
service is attached, the atomic counters, the active-connection id set, and
the clamped retention setting. -/
structure StatsCollector where
  db : DB
  geoipPresent : Bool
  activeCount : Int
  totalConns : Int
  activeConns : List Nat
  retentionDays : Int
deriving DecidableEq, Repr

/-- initServerStats: INSERT OR IGNORE of the zeroed singleton row. -/
def initServerStats (db : DB) : DB :=
  match db.server_stats with
  | some _ => db
  | none => { db with server_stats := some ⟨0, 0, 0⟩ }

/-- updateServerStats: one UPDATE adding the three deltas to the singleton
row (no rows affected when the row is absent). -/
def updateServerStats (db : DB) (connDelta bytesIn bytesOut : Int) : DB :=
  match db.server_stats with
  | none => db
  | some s =>
    { db with server_stats := some ⟨s.total_connections + connDelta,
        s.total_bytes_in + bytesIn, s.total_bytes_out + bytesOut⟩ }

/-- The upsert of updateGeoStats: ON CONFLICT(country) DO UPDATE adds the
deltas to the existing row (leaving country_name as stored), otherwise a
new row is inserted. -/
def upsertGeo (rows : List GeoRow) (country countryName : String)
    (connDelta bytes : Int) : List GeoRow :=
  match rows with
  | [] => [⟨country, countryName, connDelta, bytes⟩]
  | row :: rest =>
    if row.country == country then
      { row with connections := row.connections + connDelta,
                 total_bytes := row.total_bytes + bytes } :: rest
    else
      row :: upsertGeo rest country countryName connDelta bytes

/-- updateGeoStats from collector.go: skip entirely for an empty or
"Unknown" country, otherwise upsert with a connection delta of 1 exactly
when incrementConnections is set. -/
def updateGeoStats (db : DB) (geoipPresent : Bool) (country : String)
    (bytes : Int) (incrementConnections : Bool) : DB :=
  if country == "" || country == "Unknown" then db
  else
    let countryName := if geoipPresent then getCountryName country else country
    let connDelta : Int := if incrementConnections then 1 else 0
    { db with geo_stats := upsertGeo db.geo_stats country countryName connDelta bytes }

/-- NewStatsCollector: clamp a negative retention setting to 0, initialize
the server_stats row, start with zero counters and an empty active set. -/
def NewStatsCollector (db : DB) (geoipPresent : Bool) (retentionDays : Int) :
    StatsCollector :=
  let retention := if retentionDays < 0 then 0 else retentionDays
  { db := initServerStats db, geoipPresent := geoipPresent, activeCount := 0,
    totalConns := 0, activeConns := [], retentionDays := retention }

/-! ## Connection tracker (internal/stats/tracker.go) -/

/-- ConnectionTracker: the per-connection accounting object. -/
structure ConnectionTracker where
  id : Nat
  country : String
  bytesIn : Int
  bytesOut : Int
  startTime : Int
  closed : Bool
deriving DecidableEq, Repr

/-- The country and city TrackConnection settles on: "Unknown"/"" unless a
GeoIP service is attached and its GetLocation call succeeded, in which case
the returned pair is used as is. `geoResult` is that call's outcome. -/
def trackCountryCity (geoipPresent : Bool)
    (geoResult : Option (String × String)) : String × String :=
  if geoipPresent then
    match geoResult with
    | some p => p
    | none => ("Unknown", "")
  else ("Unknown", "")

/-- StatsCollector.TrackConnection: insert the zero-counter connection row
(`insertOk` is whether the INSERT succeeded; on failure nothing happens and
no tracker is returned), then bump the atomic counters, add 1 connection to
server_stats, upsert geo_stats, and register the tracker in the active set. -/
def TrackConnection (sc : StatsCollector) (clientIP targetAddr : String)
    (geoResult : Option (String × String)) (insertOk : Bool) (now : Int) :
    StatsCollector × Option ConnectionTracker :=
  let cc := trackCountryCity sc.geoipPresent geoResult
  if insertOk then
    let row : ConnRecord :=
      ⟨sc.db.nextId, clientIP, targetAddr, cc.1, cc.2, 0, 0, now, none, none⟩
    let sc1 := { sc with db :=
      { sc.db with connections := sc.db.connections ++ [row],
                   nextId := sc.db.nextId + 1 } }
    let sc2 := { sc1 with activeCount := sc1.activeCount + 1,
                          totalConns := sc1.totalConns + 1 }
    let sc3 := { sc2 with db := updateServerStats sc2.db 1 0 0 }
    let sc4 := { sc3 with db := updateGeoStats sc3.db sc3.geoipPresent cc.1 0 true }
    let tracker : ConnectionTracker := ⟨row.id, cc.1, 0, 0, now, false⟩
    let sc5 := { sc4 with activeConns := tracker.id :: sc4.activeConns }
    (sc5, some tracker)
  else (sc, none)

/-- One row after Close's UPDATE touched it: final counters, disconnect
time and duration filled in, everything else untouched. -/
def closeRecord (r : ConnRecord) (bytesIn bytesOut : Int) (now duration : Int) :
    ConnRecord :=
  { r with bytes_in := bytesIn, bytes_out := bytesOut,
           disconnected_at := some now, duration := some duration }

/-- The UPDATE ... WHERE id = ? issued by Close: fill the final counters,
disconnect time and duration on every row whose id matches. -/
def updateConnection (db : DB) (id : Nat) (bytesIn bytesOut : Int)
    (now duration : Int) : DB :=
  { db with connections := db.connections.map fun r =>
      if r.id == id then closeRecord r bytesIn bytesOut now duration else r }

/-- ConnectionTracker.Close: the compare-and-set on the closed flag makes a
second call a no-op; the winning call persists the final counters onto the
record, decrements the active counter, adds the byte totals to server_stats
and geo_stats, and removes the id from the active set. -/
def ConnectionTracker.close (ct : ConnectionTracker) (sc : StatsCollector)
    (now : Int) : ConnectionTracker × StatsCollector :=
  if ct.closed then (ct, sc)
  else
    let ct1 := { ct with closed := true }
    let bytesIn := ct.bytesIn
    let bytesOut := ct.bytesOut
    let duration := now - ct.startTime
    let totalBytes := bytesIn + bytesOut
    let sc1 := { sc with db := updateConnection sc.db ct.id bytesIn bytesOut now duration }
    let sc2 := { sc1 with activeCount := sc1.activeCount - 1 }
    let sc3 := { sc2 with db := updateServerStats sc2.db 0 bytesIn bytesOut }
    let sc4 := { sc3 with db := updateGeoStats sc3.db sc3.geoipPresent ct.country totalBytes false }
    let sc5 := { sc4 with activeConns := sc4.activeConns.erase ct.id }
    (ct1, sc5)

/-- trackedConn.Read: add the byte count to the in counter when positive. -/
def trackedConnRead (ct : ConnectionTracker) (n : Nat) : ConnectionTracker :=
  if 0 < n then { ct with bytesIn := ct.bytesIn + n } else ct

/-- trackedConn.Write: add the byte count to the out counter when positive. -/
def trackedConnWrite (ct : ConnectionTracker) (n : Nat) : ConnectionTracker :=
  if 0 < n then { ct with bytesOut := ct.bytesOut + n } else ct

/-- One I/O completion on the wrapped transport, carrying the byte count
the underlying Read or Write returned. -/
inductive IOEvent where
  | readDone (n : Nat)
  | writeDone (n : Nat)
deriving DecidableEq, Repr

/-- Route one I/O completion to the tracker. -/
def applyEvent (ct : ConnectionTracker) : IOEvent → ConnectionTracker
  | .readDone n => trackedConnRead ct n
  | .writeDone n => trackedConnWrite ct n

/-- The tracker after a sequence of I/O completions. -/
def applyEvents (ct : ConnectionTracker) (evs : List IOEvent) : ConnectionTracker :=
  evs.foldl applyEvent ct

/-- Bytes one event contributes to the read side. -/
def readOne : IOEvent → Nat
  | .readDone n => n
  | .writeDone _ => 0

/-- Bytes one event contributes to the write side. -/
def writeOne : IOEvent → Nat
  | .readDone _ => 0
  | .writeDone n => n

/-- Total bytes the transport reported as read over a sequence of events. -/
def readTotal (evs : List IOEvent) : Nat :=
  (evs.map readOne).sum

/-- Total bytes the transport reported as written over a sequence of events. -/
def writeTotal (evs : List IOEvent) : Nat :=
  (evs.map writeOne).sum

/-- Repeated Close calls at the given times, threading the state. -/
def closeMany (ct : ConnectionTracker) (sc : StatsCollector) :
    List Int → ConnectionTracker × StatsCollector
  | [] => (ct, sc)
  | t :: ts =>
    let p := ct.close sc t
    closeMany p.1 p.2 ts

/-! ## Retention sweep (collector.go cleanupLoop / cleanupExpiredConnections) -/

/-- cleanupExpiredConnections: one DELETE of every connections row whose
connected_at is strictly before now minus retentionDays days. -/
def cleanupExpiredConnections (sc : StatsCollector) (now : Int) : StatsCollector :=
  let cutoff := now - sc.retentionDays * 86400
  let kept := sc.db.connections.filter (fun r => !(r.connected_at < cutoff))
  { sc with db := { sc.db with connections := kept } }

/-- The times at which cleanupLoop sweeps during its first k ticker
periods: none at all when retention is disabled (retentionDays ≤ 0),
otherwise once at startup and then every 24 hours. -/
def cleanupTimes (retentionDays : Int) (start : Int) (k : Nat) : List Int :=
  if retentionDays ≤ 0 then []
  else (List.range (k + 1)).map fun i => start + i * 86400

/-- The collector after cleanupLoop has run through its first k periods. -/
def runCleanupLoop (sc : StatsCollector) (start : Int) (k : Nat) : StatsCollector :=
  (cleanupTimes sc.retentionDays start k).foldl cleanupExpiredConnections sc

/-! ## The core as a transition system over collector plus live trackers -/

/-- The full mutable state of the accounting core: the collector and every
tracker object created so far. -/
structure World where
  sc : StatsCollector
  trackers : List ConnectionTracker
deriving DecidableEq, Repr

/-- One operation of the core: connection creation, an I/O completion on a
tracked connection, a Close trigger, or a retention sweep. -/
inductive CoreOp where
  | track (clientIP targetAddr : String) (geoResult : Option (String × String))
      (insertOk : Bool) (now : Int)
  | ioRead (id : Nat) (n : Nat)
  | ioWrite (id : Nat) (n : Nat)
  | closeConn (id : Nat) (now : Int)
  | sweep (now : Int)
deriving DecidableEq, Repr

/-- Apply one operation of the core. -/
def World.step (w : World) : CoreOp → World
  | .track c t g ok now =>
    let p := TrackConnection w.sc c t g ok now
    { sc := p.1,
      trackers := match p.2 with
                  | some ct => w.trackers ++ [ct]
                  | none => w.trackers }
  | .ioRead id n =>
    { w with trackers :=
        w.trackers.map (fun ct => if ct.id == id then trackedConnRead ct n else ct) }
  | .ioWrite id n =>
    { w with trackers :=
        w.trackers.map (fun ct => if ct.id == id then trackedConnWrite ct n else ct) }
  | .closeConn id now =>
    match w.trackers.find? (fun ct => ct.id == id) with
    | none => w
    | some ct =>
      let p := ct.close w.sc now
      { sc := p.2, trackers := w.trackers.map (fun c => if c.id == id then p.1 else c) }
  | .sweep now => { w with sc := cleanupExpiredConnections w.sc now }

/-- Run a sequence of core operations from a starting state. -/
def World.run (w : World) (ops : List CoreOp) : World :=
  ops.foldl World.step w

/-- A tracker's byte counters are nonnegative (they only accumulate
positive read and write counts). -/
def trackerOk (ct : ConnectionTracker) : Prop :=
  0 ≤ ct.bytesIn ∧ 0 ≤ ct.bytesOut

/-- Every tracker object the core has created has nonnegative counters. -/
def WorldInv (w : World) : Prop :=
  ∀ ct ∈ w.trackers, trackerOk ct

/-! ## Theorems: dial authorization -/

theorem head_mem_traceStates (st : WhitelistState) (steps : List RefreshStep) :
    st ∈ traceStates st steps := by
  cases steps <;> simp [traceStates]


/-- C3: the Dialer's authorization check equals the disjunction of (a)
membership of the resolved IP string in the resolved-IP set, (b) the
resolved IP falling in some parsed range, (c) the original host equalling
some configured entry case-insensitively — each later stage consulted only
when the earlier ones failed, matching the short-circuit order. In the
concrete scenario whitelist = ["10.0.0.0/8", "example.com"] with
example.com resolved to 93.184.216.34, dialing 10.1.2.3:443 and
93.184.216.34:80 is permitted and dialing 8.8.8.8:53 is denied with an
explicit error naming the IP. -/
theorem whitelist_predicate_spec (st : WhitelistState) (cfgWhitelist : List String)
    (ipStr : String) (ip : Nat) (host : String) :
    (dialerWhitelistOk st cfgWhitelist ipStr ip host =
      (st.whitelist.contains ipStr || isIPInRange st ip ||
        cfgWhitelist.any (fun whost => equalFold host whost))) ∧
    (let st0 : WhitelistState := ⟨["93.184.216.34"], [⟨ipv4 10 0 0 0, 8⟩]⟩
     let cfg0 : List String := ["10.0.0.0/8", "example.com"]
     (dialer st0 cfg0 (some "10.1.2.3") (some ("10.1.2.3", ipv4 10 1 2 3))
        "tcp" "10.1.2.3:443" true true).result = .conn ∧
     (dialer st0 cfg0 (some "93.184.216.34") (some ("93.184.216.34", ipv4 93 184 216 34))
        "tcp" "93.184.216.34:80" true true).result = .conn ∧
     dialer st0 cfg0 (some "8.8.8.8") (some ("8.8.8.8", ipv4 8 8 8 8))
        "tcp" "8.8.8.8:53" true true =
       ⟨.err "ip 8.8.8.8 is not in the whitelist", []⟩) := by
  constructor
  · cases h1 : st.whitelist.contains ipStr <;>
      cases h2 : isIPInRange st ip <;>
        cases h3 : cfgWhitelist.any (fun whost => equalFold host whost) <;>
          simp only [dialerWhitelistOk, h1, h2, h3] <;> rfl
  · exact ⟨by decide, by decide, by decide⟩

/-- C4: when IPv4 resolution of the target host fails, the Dialer returns
an error without any side effect; and when the resolved IP is not
whitelisted, the Dialer returns an error naming the rejected IP, again
with no record insert, no counter change and no dial attempt. -/
theorem dial_failclosed_no_sideeffects (st : WhitelistState) (cfg : List String)
    (host ipStr : String) (ip : Nat) (network addr : String)
    (dialOk statsEnabled : Bool)
    (hdeny : dialerWhitelistOk st cfg ipStr ip host = false) :
    (dialer st cfg (some host) none network addr dialOk statsEnabled =
      ⟨.err "failed to resolve IP", []⟩) ∧
    (dialer st cfg (some host) (some (ipStr, ip)) network addr dialOk statsEnabled =
      ⟨.err ("ip " ++ ipStr ++ " is not in the whitelist"), []⟩) := by
  refine ⟨rfl, ?_⟩
  simp [dialer, hdeny]

/-- C4 witness: in the scenario state, dialing 8.8.8.8:53 is denied with
the error naming 8.8.8.8 and an empty effect trace. -/
theorem dial_failclosed_no_sideeffects_witness :
    dialer ⟨["93.184.216.34"], [⟨ipv4 10 0 0 0, 8⟩]⟩ ["10.0.0.0/8", "example.com"]
        (some "8.8.8.8") (some ("8.8.8.8", ipv4 8 8 8 8)) "tcp" "8.8.8.8:53" true true =
      ⟨.err ("ip " ++ "8.8.8.8" ++ " is not in the whitelist"), []⟩ :=
  (dial_failclosed_no_sideeffects ⟨["93.184.216.34"], [⟨ipv4 10 0 0 0, 8⟩]⟩
    ["10.0.0.0/8", "example.com"] "8.8.8.8" "8.8.8.8" (ipv4 8 8 8 8)
    "tcp" "8.8.8.8:53" true true (by decide)).2

/-! ## Theorems: free-bind socket option -/

/-- C7 counterexample: on Linux, when the setsockopt(IP_FREEBIND) call
fails for lack of privilege, the Control callback returns that error
instead of skipping the option, so the dial fails instead of proceeding. -/
theorem freebind_counterexample :
    dialerControl "linux" none (some "operation not permitted") =
      some "operation not permitted" ∧
    dialerControl "linux" none (some "operation not permitted") ≠ none := by
  exact ⟨by decide, by decide⟩

/-- C7 amended: the free-bind option is skipped silently only on non-Linux
platforms, where the Control callback returns nil regardless of any error;
on Linux the setsockopt error is returned as is, failing the dial, rather
than being skipped. -/
theorem freebind_platform_gated (goos : String) (rawConnErr operr : Option String)
    (h : goos ≠ "linux") :
    (dialerControl goos rawConnErr operr = none) ∧
    (dialerControl "linux" none operr = operr) := by
  constructor
  · simp [dialerControl, h]
  · simp [dialerControl]

/-- C7 amended witness: on darwin the callback returns nil even when the
setsockopt error is present; on Linux that same error is returned. -/
theorem freebind_platform_gated_witness :
    (dialerControl "darwin" none (some "operation not permitted") = none) ∧
    (dialerControl "linux" none (some "operation not permitted") =
      some "operation not permitted") :=
  freebind_platform_gated "darwin" none (some "operation not permitted") (by decide)

/-! ## Theorems: refresh atomicity -/

/-- C6 counterexample: with configured whitelist ["10.0.0.0/8"], the
refresh cycle clears the shared range list in one critical section and
re-adds the parsed range in a later one; the middle state of the trace has
an empty range list, equals neither the pre-refresh nor the post-refresh
snapshot, and answers isIPInRange(10.1.2.3) = false although both
snapshots answer true — so a concurrent read can observe a
partially-updated range list. -/
theorem refresh_atomicity_counterexample :
    (traceStates ⟨[], [⟨ipv4 10 0 0 0, 8⟩]⟩
        [RefreshStep.clearRanges, RefreshStep.addRange ⟨ipv4 10 0 0 0, 8⟩] =
      [⟨[], [⟨ipv4 10 0 0 0, 8⟩]⟩, ⟨[], []⟩, ⟨[], [⟨ipv4 10 0 0 0, 8⟩]⟩]) ∧
    ¬ (∀ s ∈ traceStates ⟨[], [⟨ipv4 10 0 0 0, 8⟩]⟩
        [RefreshStep.clearRanges, RefreshStep.addRange ⟨ipv4 10 0 0 0, 8⟩],
        s = ⟨[], [⟨ipv4 10 0 0 0, 8⟩]⟩ ∨
        s = runSteps ⟨[], [⟨ipv4 10 0 0 0, 8⟩]⟩
          [RefreshStep.clearRanges, RefreshStep.addRange ⟨ipv4 10 0 0 0, 8⟩]) ∧
    isIPInRange ⟨[], [⟨ipv4 10 0 0 0, 8⟩]⟩ (ipv4 10 1 2 3) = true ∧
    isIPInRange ⟨[], []⟩ (ipv4 10 1 2 3) = false := by
  refine ⟨by decide, by decide, by decide, by decide⟩

/-- C6 amended: every single lock-protected access observes a consistent
value, but the refresh cycle as a whole is not atomic: whenever the
pre-refresh state has a nonempty range list and the cycle ends with a
nonempty range list, the trace of observable states contains an
intermediate state — the one right after the initial clearing of the range
list — that differs from both the pre-refresh and the post-refresh
snapshot. -/
theorem refresh_cycle_not_atomic (pre : WhitelistState) (rest : List RefreshStep)
    (hpre : pre.ipRanges ≠ [])
    (hpost : (runSteps pre (RefreshStep.clearRanges :: rest)).ipRanges ≠ []) :
    ∃ s ∈ traceStates pre (RefreshStep.clearRanges :: rest),
      s ≠ pre ∧ s ≠ runSteps pre (RefreshStep.clearRanges :: rest) := by
  refine ⟨{ pre with ipRanges := [] }, ?_, ?_, ?_⟩
  · show { pre with ipRanges := [] } ∈
      pre :: traceStates (applyStep pre .clearRanges) rest
    exact List.mem_cons_of_mem _ (head_mem_traceStates _ _)
  · intro h
    exact hpre (by rw [← h])
  · intro h
    exact hpost (by rw [← h])

/-- C6 amended witness: the concrete one-range cycle has such an
intermediate state. -/
theorem refresh_cycle_not_atomic_witness :
    ∃ s ∈ traceStates ⟨[], [⟨ipv4 10 0 0 0, 8⟩]⟩
        [RefreshStep.clearRanges, RefreshStep.addRange ⟨ipv4 10 0 0 0, 8⟩],
      s ≠ ⟨[], [⟨ipv4 10 0 0 0, 8⟩]⟩ ∧
      s ≠ runSteps ⟨[], [⟨ipv4 10 0 0 0, 8⟩]⟩
        [RefreshStep.clearRanges, RefreshStep.addRange ⟨ipv4 10 0 0 0, 8⟩] :=
  refresh_cycle_not_atomic ⟨[], [⟨ipv4 10 0 0 0, 8⟩]⟩
    [RefreshStep.addRange ⟨ipv4 10 0 0 0, 8⟩] (by decide) (by decide)

/-! ## Frame lemmas for the single-statement store mutations -/

theorem updateServerStats_connections (db : DB) (d bi bo : Int) :
    (updateServerStats db d bi bo).connections = db.connections := by
  obtain ⟨c, n, ss, g⟩ := db
  cases ss <;> rfl

theorem updateServerStats_geo (db : DB) (d bi bo : Int) :
    (updateServerStats db d bi bo).geo_stats = db.geo_stats := by
  obtain ⟨c, n, ss, g⟩ := db
  cases ss <;> rfl

theorem updateServerStats_totals (db : DB) (d bi bo : Int) (s : ServerStats)
    (h : db.server_stats = some s) :
    (updateServerStats db d bi bo).totalConnections = db.totalConnections + d ∧
    (updateServerStats db d bi bo).totalBytesIn = db.totalBytesIn + bi ∧
    (updateServerStats db d bi bo).totalBytesOut = db.totalBytesOut + bo := by
  obtain ⟨c, n, ss, g⟩ := db
  cases ss with
  | none => cases h
  | some s0 =>
    exact ⟨rfl, rfl, rfl⟩

theorem updateServerStats_totalConnections_zero (db : DB) (bi bo : Int) :
    (updateServerStats db 0 bi bo).totalConnections = db.totalConnections := by
  obtain ⟨c, n, ss, g⟩ := db
  cases ss with
  | none => rfl
  | some s0 => simp [updateServerStats, DB.totalConnections]

theorem updateServerStats_mono (db : DB) (d bi bo : Int)
    (hd : 0 ≤ d) (hbi : 0 ≤ bi) (hbo : 0 ≤ bo) :
    db.totalConnections ≤ (updateServerStats db d bi bo).totalConnections ∧
    db.totalBytesIn ≤ (updateServerStats db d bi bo).totalBytesIn ∧
    db.totalBytesOut ≤ (updateServerStats db d bi bo).totalBytesOut := by
  obtain ⟨c, n, ss, g⟩ := db
  cases ss with
  | none => exact ⟨le_refl _, le_refl _, le_refl _⟩
  | some s0 =>
    refine ⟨?_, ?_, ?_⟩ <;>
      simp [updateServerStats, DB.totalConnections, DB.totalBytesIn, DB.totalBytesOut] <;>
        omega

theorem updateGeoStats_connections (db : DB) (g : Bool) (c : String) (b : Int)
    (i : Bool) : (updateGeoStats db g c b i).connections = db.connections := by
  unfold updateGeoStats
  split <;> rfl

theorem updateGeoStats_server (db : DB) (g : Bool) (c : String) (b : Int)
    (i : Bool) : (updateGeoStats db g c b i).server_stats = db.server_stats := by
  unfold updateGeoStats
  split <;> rfl

theorem updateConnection_server (db : DB) (id : Nat) (bi bo now dur : Int) :
    (updateConnection db id bi bo now dur).server_stats = db.server_stats := rfl

theorem updateConnection_geo (db : DB) (id : Nat) (bi bo now dur : Int) :
    (updateConnection db id bi bo now dur).geo_stats = db.geo_stats := rfl

theorem totals_eq_of_server_eq (db1 db2 : DB) (h : db1.server_stats = db2.server_stats) :
    db1.totalConnections = db2.totalConnections ∧
    db1.totalBytesIn = db2.totalBytesIn ∧
    db1.totalBytesOut = db2.totalBytesOut := by
  unfold DB.totalConnections DB.totalBytesIn DB.totalBytesOut
  rw [h]
  exact ⟨rfl, rfl, rfl⟩

/-! ## Lemmas about Close and the byte-counting wrapper -/

theorem close_of_closed (ct : ConnectionTracker) (sc : StatsCollector) (t : Int)
    (h : ct.closed = true) : ct.close sc t = (ct, sc) := by
  simp [ConnectionTracker.close, h]

theorem close_fst (ct : ConnectionTracker) (sc : StatsCollector) (t : Int)
    (h : ct.closed = false) :
    (ct.close sc t).1 = { ct with closed := true } := by
  simp [ConnectionTracker.close, h]

theorem closeMany_of_closed (ct : ConnectionTracker) (sc : StatsCollector)
    (ts : List Int) (h : ct.closed = true) : closeMany ct sc ts = (ct, sc) := by
  induction ts with
  | nil => rfl
  | cons t ts ih =>
    show closeMany (ct.close sc t).1 (ct.close sc t).2 ts = (ct, sc)
    rw [close_of_closed _ _ _ h]
    exact ih

theorem trackedConnRead_spec (ct : ConnectionTracker) (n : Nat) :
    trackedConnRead ct n = { ct with bytesIn := ct.bytesIn + n } := by
  unfold trackedConnRead
  split
  · rfl
  · have hn : n = 0 := by omega
    subst hn
    simp

theorem trackedConnWrite_spec (ct : ConnectionTracker) (n : Nat) :
    trackedConnWrite ct n = { ct with bytesOut := ct.bytesOut + n } := by
  unfold trackedConnWrite
  split
  · rfl
  · have hn : n = 0 := by omega
    subst hn
    simp

theorem applyEvent_normal (ct : ConnectionTracker) (e : IOEvent) :
    applyEvent ct e = { ct with bytesIn := ct.bytesIn + readOne e,
                                bytesOut := ct.bytesOut + writeOne e } := by
  cases e with
  | readDone n => simp [applyEvent, trackedConnRead_spec, readOne, writeOne]
  | writeDone n => simp [applyEvent, trackedConnWrite_spec, readOne, writeOne]

theorem applyEvents_spec (evs : List IOEvent) (ct : ConnectionTracker) :
    (applyEvents ct evs).id = ct.id ∧ (applyEvents ct evs).country = ct.country ∧
    (applyEvents ct evs).startTime = ct.startTime ∧
    (applyEvents ct evs).closed = ct.closed ∧
    (applyEvents ct evs).bytesIn = ct.bytesIn + (readTotal evs : Int) ∧
    (applyEvents ct evs).bytesOut = ct.bytesOut + (writeTotal evs : Int) := by
  induction evs generalizing ct with
  | nil =>
    refine ⟨rfl, rfl, rfl, rfl, ?_, ?_⟩ <;> simp [applyEvents, readTotal, writeTotal]
  | cons e evs ih =>
    have hstep : applyEvents ct (e :: evs) = applyEvents (applyEvent ct e) evs := rfl
    obtain ⟨i1, i2, i3, i4, i5, i6⟩ := ih (applyEvent ct e)
    rw [applyEvent_normal] at i1 i2 i3 i4 i5 i6
    refine ⟨?_, ?_, ?_, ?_, ?_, ?_⟩ <;> rw [hstep, applyEvent_normal]
    · exact i1
    · exact i2
    · exact i3
    · exact i4
    · rw [i5]
      simp [readTotal]
      ring
    · rw [i6]
      simp [writeTotal]
      ring

theorem close_snd_connections (ct : ConnectionTracker) (sc : StatsCollector)
    (t : Int) (h : ct.closed = false) :
    (ct.close sc t).2.db.connections =
      (updateConnection sc.db ct.id ct.bytesIn ct.bytesOut t
        (t - ct.startTime)).connections := by
  simp [ConnectionTracker.close, h, updateGeoStats_connections,
    updateServerStats_connections]

theorem mem_updateConnection_of_mem (db : DB) (idv : Nat) (bi bo now dur : Int)
    (r : ConnRecord) (hr : r ∈ db.connections) (hid : r.id = idv) :
    closeRecord r bi bo now dur ∈ (updateConnection db idv bi bo now dur).connections := by
  unfold updateConnection
  have hf : closeRecord r bi bo now dur =
      (fun r0 => if r0.id == idv then closeRecord r0 bi bo now dur else r0) r := by
    simp [hid]
  rw [hf]
  exact List.mem_map_of_mem _ hr

/-! ## Theorems: tracker finalization -/

/-- C1: any number of Close calls on one tracker has exactly the effect of
the first one: the whole sequence equals the single first Close, which sets
the closed flag, decrements the active counter by exactly one, removes the
id from the active set, and adds the byte totals to the server aggregate
once; a Close on an already-closed tracker changes nothing at all. -/
theorem close_exactly_once (ct : ConnectionTracker) (sc : StatsCollector)
    (t : Int) (ts : List Int) (h : ct.closed = false) :
    (closeMany ct sc (t :: ts) = ct.close sc t) ∧
    ((ct.close sc t).1.closed = true) ∧
    ((ct.close sc t).2.activeCount = sc.activeCount - 1) ∧
    ((ct.close sc t).2.activeConns = sc.activeConns.erase ct.id) ∧
    (∀ s, sc.db.server_stats = some s →
      (ct.close sc t).2.db.totalBytesIn = sc.db.totalBytesIn + ct.bytesIn ∧
      (ct.close sc t).2.db.totalBytesOut = sc.db.totalBytesOut + ct.bytesOut) ∧
    (∀ (ct' : ConnectionTracker) (sc' : StatsCollector) (u : Int),
      ct'.closed = true → ct'.close sc' u = (ct', sc')) := by
  refine ⟨?_, ?_, ?_, ?_, ?_, fun ct' sc' u h' => close_of_closed ct' sc' u h'⟩
  · show closeMany (ct.close sc t).1 (ct.close sc t).2 ts = ct.close sc t
    rw [closeMany_of_closed]
    rw [close_fst _ _ _ h]
  · rw [close_fst _ _ _ h]
  · simp [ConnectionTracker.close, h]
  · simp [ConnectionTracker.close, h]
  · intro s hs
    have hframe :
        ((ct.close sc t).2.db.server_stats =
          (updateServerStats (updateConnection sc.db ct.id ct.bytesIn ct.bytesOut t
            (t - ct.startTime)) 0 ct.bytesIn ct.bytesOut).server_stats) := by
      simp [ConnectionTracker.close, h, updateGeoStats_server]
    have h1 : (updateConnection sc.db ct.id ct.bytesIn ct.bytesOut t
        (t - ct.startTime)).server_stats = sc.db.server_stats :=
      updateConnection_server _ _ _ _ _ _
    have htot := updateServerStats_totals
      (updateConnection sc.db ct.id ct.bytesIn ct.bytesOut t (t - ct.startTime))
      0 ct.bytesIn ct.bytesOut s (by rw [h1, hs])
    have heqv := totals_eq_of_server_eq _ _ hframe
    have heqv2 := totals_eq_of_server_eq _ _ h1
    refine ⟨?_, ?_⟩
    · rw [heqv.2.1, htot.2.1, heqv2.2.1]
    · rw [heqv.2.2, htot.2.2, heqv2.2.2]

/-- C1 witness: a concrete unclosed tracker closed three times equals it
closed once. -/
theorem close_exactly_once_witness :
    closeMany ⟨1, "US", 5, 7, 100, false⟩
        ⟨⟨[⟨1, "9.9.9.9", "t:443", "US", "", 0, 0, 100, none, none⟩], 2,
          some ⟨1, 0, 0⟩, []⟩, true, 1, 1, [1], 30⟩ [160, 161, 162] =
      ConnectionTracker.close ⟨1, "US", 5, 7, 100, false⟩
        ⟨⟨[⟨1, "9.9.9.9", "t:443", "US", "", 0, 0, 100, none, none⟩], 2,
          some ⟨1, 0, 0⟩, []⟩, true, 1, 1, [1], 30⟩ 160 :=
  (close_exactly_once ⟨1, "US", 5, 7, 100, false⟩
    ⟨⟨[⟨1, "9.9.9.9", "t:443", "US", "", 0, 0, 100, none, none⟩], 2,
      some ⟨1, 0, 0⟩, []⟩, true, 1, 1, [1], 30⟩ 160 [161, 162] rfl).1

/-- C2: a connection created by TrackConnection at time t0, streaming a
total of X bytes in and Y bytes out through the wrapped transport, then
closed at time t1, leaves in the store a record with that connection's id
whose bytes_in is X, bytes_out is Y, disconnected_at is t1, and duration is
t1 - t0 (exact in this model, where Close reads the same clock). -/
theorem stream_then_close_persists (sc : StatsCollector)
    (clientIP targetAddr : String) (geoResult : Option (String × String))
    (t0 : Int) (evs : List IOEvent) (t1 : Int)
    (sc' : StatsCollector) (ct : ConnectionTracker)
    (h : TrackConnection sc clientIP targetAddr geoResult true t0 = (sc', some ct)) :
    ∃ r ∈ ((applyEvents ct evs).close sc' t1).2.db.connections,
      r.id = ct.id ∧ r.bytes_in = (readTotal evs : Int) ∧
      r.bytes_out = (writeTotal evs : Int) ∧
      r.disconnected_at = some t1 ∧ r.duration = some (t1 - t0) := by
  simp only [TrackConnection, if_true] at h
  rw [Prod.mk.injEq] at h
  obtain ⟨hsc, hct⟩ := h
  rw [Option.some.injEq] at hct
  subst hsc
  subst hct
  obtain ⟨e1, e2, e3, e4, e5, e6⟩ :=
    applyEvents_spec evs
      ⟨sc.db.nextId, (trackCountryCity sc.geoipPresent geoResult).1, 0, 0, t0, false⟩
  have hbi : (applyEvents
      (⟨sc.db.nextId, (trackCountryCity sc.geoipPresent geoResult).1, 0, 0, t0, false⟩ :
        ConnectionTracker) evs).bytesIn = (readTotal evs : Int) := by
    rw [e5]; simp
  have hbo : (applyEvents
      (⟨sc.db.nextId, (trackCountryCity sc.geoipPresent geoResult).1, 0, 0, t0, false⟩ :
        ConnectionTracker) evs).bytesOut = (writeTotal evs : Int) := by
    rw [e6]; simp
  refine ⟨closeRecord
      ⟨sc.db.nextId, clientIP, targetAddr, (trackCountryCity sc.geoipPresent geoResult).1,
        (trackCountryCity sc.geoipPresent geoResult).2, 0, 0, t0, none, none⟩
      (readTotal evs : Int) (writeTotal evs : Int) t1 (t1 - t0),
    ?_, rfl, rfl, rfl, rfl, rfl⟩
  rw [close_snd_connections _ _ _ e4, hbi, hbo, e3, e1]
  apply mem_updateConnection_of_mem
  · rw [updateGeoStats_connections, updateServerStats_connections]
    simp
  · rfl

/-- C2 witness: a concrete connection reading 5 bytes and writing 7, then
closed 60 seconds after creation, persists bytes_in 5, bytes_out 7 and
duration 60. -/
theorem stream_then_close_persists_witness :
    ∃ r ∈ ((applyEvents ⟨1, "US", 0, 0, 100, false⟩
        [IOEvent.readDone 5, IOEvent.writeDone 7]).close
        (TrackConnection (NewStatsCollector ⟨[], 1, none, []⟩ true 30)
          "9.9.9.9" "t:443" (some ("US", "NY")) true 100).1 160).2.db.connections,
      r.id = (⟨1, "US", 0, 0, 100, false⟩ : ConnectionTracker).id ∧
      r.bytes_in = ((readTotal [IOEvent.readDone 5, IOEvent.writeDone 7] : Nat) : Int) ∧
      r.bytes_out = ((writeTotal [IOEvent.readDone 5, IOEvent.writeDone 7] : Nat) : Int) ∧
      r.disconnected_at = some 160 ∧ r.duration = some (160 - 100) :=
  stream_then_close_persists (NewStatsCollector ⟨[], 1, none, []⟩ true 30)
    "9.9.9.9" "t:443" (some ("US", "NY")) 100
    [IOEvent.readDone 5, IOEvent.writeDone 7] 160
    (TrackConnection (NewStatsCollector ⟨[], 1, none, []⟩ true 30)
      "9.9.9.9" "t:443" (some ("US", "NY")) true 100).1
    ⟨1, "US", 0, 0, 100, false⟩ (by decide)

/-! ## Lemmas for aggregate monotonicity -/

theorem trackInsert_totalConns (db1 : DB) (g : Bool) (c : String) (s : ServerStats)
    (h : db1.server_stats = some s) :
    (updateGeoStats (updateServerStats db1 1 0 0) g c 0 true).totalConnections =
      db1.totalConnections + 1 := by
  have h1 := totals_eq_of_server_eq _ _
    (updateGeoStats_server (updateServerStats db1 1 0 0) g c 0 true)
  rw [h1.1]
  exact (updateServerStats_totals db1 1 0 0 s h).1

theorem trackInsert_mono (db1 : DB) (g : Bool) (c : String) :
    db1.totalConnections ≤
      (updateGeoStats (updateServerStats db1 1 0 0) g c 0 true).totalConnections ∧
    db1.totalBytesIn ≤
      (updateGeoStats (updateServerStats db1 1 0 0) g c 0 true).totalBytesIn ∧
    db1.totalBytesOut ≤
      (updateGeoStats (updateServerStats db1 1 0 0) g c 0 true).totalBytesOut := by
  have hgeo := totals_eq_of_server_eq _ _
    (updateGeoStats_server (updateServerStats db1 1 0 0) g c 0 true)
  have hupd := updateServerStats_mono db1 1 0 0 (by omega) (le_refl 0) (le_refl 0)
  refine ⟨?_, ?_, ?_⟩
  · rw [hgeo.1]; exact hupd.1
  · rw [hgeo.2.1]; exact hupd.2.1
  · rw [hgeo.2.2]; exact hupd.2.2

theorem close_totalConns (ct : ConnectionTracker) (sc : StatsCollector) (now : Int) :
    (ct.close sc now).2.db.totalConnections = sc.db.totalConnections := by
  cases h : ct.closed with
  | true => rw [close_of_closed _ _ _ h]
  | false =>
    simp only [ConnectionTracker.close, h, Bool.false_eq_true, if_false]
    have hgeo := totals_eq_of_server_eq _ _
      (updateGeoStats_server (updateServerStats (updateConnection sc.db ct.id
        ct.bytesIn ct.bytesOut now (now - ct.startTime)) 0 ct.bytesIn ct.bytesOut)
        sc.geoipPresent ct.country (ct.bytesIn + ct.bytesOut) false)
    rw [hgeo.1, updateServerStats_totalConnections_zero]
    exact (totals_eq_of_server_eq _ _ (updateConnection_server sc.db ct.id
      ct.bytesIn ct.bytesOut now (now - ct.startTime))).1

theorem close_mono (ct : ConnectionTracker) (sc : StatsCollector) (t : Int)
    (hbi : 0 ≤ ct.bytesIn) (hbo : 0 ≤ ct.bytesOut) :
    sc.db.totalConnections ≤ (ct.close sc t).2.db.totalConnections ∧
    sc.db.totalBytesIn ≤ (ct.close sc t).2.db.totalBytesIn ∧
    sc.db.totalBytesOut ≤ (ct.close sc t).2.db.totalBytesOut := by
  cases h : ct.closed with
  | true => rw [close_of_closed _ _ _ h]; exact ⟨le_refl _, le_refl _, le_refl _⟩
  | false =>
    simp only [ConnectionTracker.close, h, Bool.false_eq_true, if_false]
    have hgeo := totals_eq_of_server_eq _ _
      (updateGeoStats_server (updateServerStats (updateConnection sc.db ct.id
        ct.bytesIn ct.bytesOut t (t - ct.startTime)) 0 ct.bytesIn ct.bytesOut)
        sc.geoipPresent ct.country (ct.bytesIn + ct.bytesOut) false)
    have hupd := updateServerStats_mono (updateConnection sc.db ct.id ct.bytesIn
      ct.bytesOut t (t - ct.startTime)) 0 ct.bytesIn ct.bytesOut (le_refl 0) hbi hbo
    have hconn := totals_eq_of_server_eq _ _ (updateConnection_server sc.db ct.id
      ct.bytesIn ct.bytesOut t (t - ct.startTime))
    refine ⟨?_, ?_, ?_⟩
    · rw [hgeo.1, ← hconn.1]; exact hupd.1
    · rw [hgeo.2.1, ← hconn.2.1]; exact hupd.2.1
    · rw [hgeo.2.2, ← hconn.2.2]; exact hupd.2.2

theorem close_fst_counters (ct : ConnectionTracker) (sc : StatsCollector) (t : Int) :
    (ct.close sc t).1.bytesIn = ct.bytesIn ∧
    (ct.close sc t).1.bytesOut = ct.bytesOut := by
  cases h : ct.closed with
  | true => rw [close_of_closed _ _ _ h]; exact ⟨rfl, rfl⟩
  | false => rw [close_fst _ _ _ h]; exact ⟨rfl, rfl⟩

/-- C5: total_connections grows by exactly 1 on each successful tracked
connection creation; a failed insert changes nothing; Close never changes
total_connections; and no operation of the core (creation, I/O accounting,
Close, retention sweep) ever decreases total_connections, total_bytes_in
or total_bytes_out, given that every live tracker has nonnegative counters
— an invariant each operation also preserves. -/
theorem server_totals_monotone :
    (∀ (sc : StatsCollector) (c t : String) (g : Option (String × String))
        (now : Int) (s : ServerStats), sc.db.server_stats = some s →
      (TrackConnection sc c t g true now).1.db.totalConnections =
        sc.db.totalConnections + 1) ∧
    (∀ (sc : StatsCollector) (c t : String) (g : Option (String × String))
        (now : Int), (TrackConnection sc c t g false now).1 = sc) ∧
    (∀ (ct : ConnectionTracker) (sc : StatsCollector) (now : Int),
      (ct.close sc now).2.db.totalConnections = sc.db.totalConnections) ∧
    (∀ (w : World) (op : CoreOp), WorldInv w →
      WorldInv (w.step op) ∧
      w.sc.db.totalConnections ≤ (w.step op).sc.db.totalConnections ∧
      w.sc.db.totalBytesIn ≤ (w.step op).sc.db.totalBytesIn ∧
      w.sc.db.totalBytesOut ≤ (w.step op).sc.db.totalBytesOut) := by
  refine ⟨?_, ?_, ?_, ?_⟩
  · intro sc c t g now s hs
    simp only [TrackConnection, if_true]
    exact trackInsert_totalConns _ _ _ s hs
  · intro sc c t g now
    rfl
  · intro ct sc now
    exact close_totalConns ct sc now
  · intro w op hinv
    cases op with
    | track c t g ok now =>
      cases ok with
      | false => exact ⟨hinv, le_refl _, le_refl _, le_refl _⟩
      | true =>
        constructor
        · intro ct hct
          simp only [World.step, TrackConnection, if_true] at hct
          rcases List.mem_append.mp hct with hmem | hmem
          · exact hinv ct hmem
          · rw [List.mem_singleton] at hmem
            subst hmem
            exact ⟨le_refl 0, le_refl 0⟩
        · simp only [World.step, TrackConnection, if_true]
          exact trackInsert_mono _ _ _
    | ioRead id n =>
      refine ⟨?_, le_refl _, le_refl _, le_refl _⟩
      intro ct hct
      simp only [World.step] at hct
      rcases List.mem_map.mp hct with ⟨ct0, hmem, heq⟩
      have hok := hinv ct0 hmem
      by_cases hid : (ct0.id == id) = true
      · simp only [hid, if_true, trackedConnRead_spec] at heq
        subst heq
        obtain ⟨h1, h2⟩ := hok
        exact ⟨by show 0 ≤ ct0.bytesIn + (n : Int); omega, h2⟩
      · rw [Bool.not_eq_true] at hid
        simp only [hid, Bool.false_eq_true, if_false] at heq
        subst heq
        exact hok
    | ioWrite id n =>
      refine ⟨?_, le_refl _, le_refl _, le_refl _⟩
      intro ct hct
      simp only [World.step] at hct
      rcases List.mem_map.mp hct with ⟨ct0, hmem, heq⟩
      have hok := hinv ct0 hmem
      by_cases hid : (ct0.id == id) = true
      · simp only [hid, if_true, trackedConnWrite_spec] at heq
        subst heq
        obtain ⟨h1, h2⟩ := hok
        exact ⟨h1, by show 0 ≤ ct0.bytesOut + (n : Int); omega⟩
      · rw [Bool.not_eq_true] at hid
        simp only [hid, Bool.false_eq_true, if_false] at heq
        subst heq
        exact hok
    | closeConn id now =>
      cases hf : w.trackers.find? (fun ct => ct.id == id) with
      | none =>
        simp only [World.step, hf]
        exact ⟨hinv, le_refl _, le_refl _, le_refl _⟩
      | some ct0 =>
        have hmem0 : ct0 ∈ w.trackers := List.mem_of_find?_eq_some hf
        have hok0 := hinv ct0 hmem0
        simp only [World.step, hf]
        refine ⟨?_, close_mono ct0 w.sc now hok0.1 hok0.2⟩
        intro ct hct
        rcases List.mem_map.mp hct with ⟨ct1, hmem, heq⟩
        have hok1 := hinv ct1 hmem
        by_cases hid : (ct1.id == id) = true
        · simp only [hid, if_true] at heq
          subst heq
          have hc := close_fst_counters ct0 w.sc now
          exact ⟨hc.1 ▸ hok0.1, hc.2 ▸ hok0.2⟩
        · rw [Bool.not_eq_true] at hid
          simp only [hid, Bool.false_eq_true, if_false] at heq
          subst heq
          exact hok1
    | sweep now =>
      exact ⟨hinv, le_refl _, le_refl _, le_refl _⟩

/-- C5 witness: one successful creation on an initialized collector takes
total_connections from 0 to 1, and a sweep step does not decrease it. -/
theorem server_totals_monotone_witness :
    ((TrackConnection (NewStatsCollector ⟨[], 1, none, []⟩ true 30)
        "9.9.9.9" "t:443" (some ("US", "NY")) true 100).1.db.totalConnections =
      (NewStatsCollector ⟨[], 1, none, []⟩ true 30).db.totalConnections + 1) ∧
    ((World.mk (NewStatsCollector ⟨[], 1, none, []⟩ true 30) []).sc.db.totalConnections ≤
      ((World.mk (NewStatsCollector ⟨[], 1, none, []⟩ true 30) []).step
        (CoreOp.sweep 0)).sc.db.totalConnections) :=
  ⟨server_totals_monotone.1 (NewStatsCollector ⟨[], 1, none, []⟩ true 30)
      "9.9.9.9" "t:443" (some ("US", "NY")) 100 ⟨0, 0, 0⟩ (by decide),
   (server_totals_monotone.2.2.2 (World.mk (NewStatsCollector ⟨[], 1, none, []⟩ true 30) [])
      (CoreOp.sweep 0) (by intro ct hct; cases hct)).2.1⟩

/-! ## Theorems: retention sweep and geo frame -/

/-- C8: one retention sweep deletes exactly the records whose connected_at
predates the cutoff (now minus retentionDays days): every such record is
absent afterwards, every newer record survives, and the server_stats row
and the geo_stats table are untouched — aggregates are never recomputed or
decremented by the sweep. -/
theorem retention_sweep_frame (sc : StatsCollector) (now : Int) :
    ((cleanupExpiredConnections sc now).db.connections =
      sc.db.connections.filter
        (fun r => !(r.connected_at < now - sc.retentionDays * 86400))) ∧
    (∀ r ∈ sc.db.connections, r.connected_at < now - sc.retentionDays * 86400 →
      r ∉ (cleanupExpiredConnections sc now).db.connections) ∧
    (∀ r ∈ sc.db.connections, ¬(r.connected_at < now - sc.retentionDays * 86400) →
      r ∈ (cleanupExpiredConnections sc now).db.connections) ∧
    ((cleanupExpiredConnections sc now).db.server_stats = sc.db.server_stats) ∧
    ((cleanupExpiredConnections sc now).db.geo_stats = sc.db.geo_stats) := by
  refine ⟨rfl, ?_, ?_, rfl, rfl⟩
  · intro r hr hold hmem
    have hkeep := (List.mem_filter.mp hmem).2
    simp only [Bool.not_eq_true', decide_eq_false_iff_not] at hkeep
    omega
  · intro r hr hkeep
    refine List.mem_filter.mpr ⟨hr, ?_⟩
    simp only [Bool.not_eq_true', decide_eq_false_iff_not]
    omega

/-- C8 witness: a record 30 days and a second past the cutoff is gone after
the sweep, while the server_stats row survives unchanged. -/
theorem retention_sweep_frame_witness :
    ((⟨1, "9.9.9.9", "t:443", "US", "", 0, 0, 0, none, none⟩ : ConnRecord) ∉
      (cleanupExpiredConnections
        ⟨⟨[⟨1, "9.9.9.9", "t:443", "US", "", 0, 0, 0, none, none⟩], 2,
          some ⟨1, 0, 0⟩, []⟩, true, 0, 1, [], 30⟩
        (30 * 86400 + 1)).db.connections) ∧
    ((cleanupExpiredConnections
        ⟨⟨[⟨1, "9.9.9.9", "t:443", "US", "", 0, 0, 0, none, none⟩], 2,
          some ⟨1, 0, 0⟩, []⟩, true, 0, 1, [], 30⟩
        (30 * 86400 + 1)).db.server_stats =
      (⟨⟨[⟨1, "9.9.9.9", "t:443", "US", "", 0, 0, 0, none, none⟩], 2,
          some ⟨1, 0, 0⟩, []⟩, true, 0, 1, [], 30⟩ : StatsCollector).db.server_stats) :=
  ⟨(retention_sweep_frame
      ⟨⟨[⟨1, "9.9.9.9", "t:443", "US", "", 0, 0, 0, none, none⟩], 2,
        some ⟨1, 0, 0⟩, []⟩, true, 0, 1, [], 30⟩
      (30 * 86400 + 1)).2.1 _ (by decide) (by decide),
   (retention_sweep_frame
      ⟨⟨[⟨1, "9.9.9.9", "t:443", "US", "", 0, 0, 0, none, none⟩], 2,
        some ⟨1, 0, 0⟩, []⟩, true, 0, 1, [], 30⟩
      (30 * 86400 + 1)).2.2.2.1⟩

theorem updateGeoStats_empty_code (db : DB) (g : Bool) (b : Int) (i : Bool) :
    updateGeoStats db g "" b i = db := by
  simp [updateGeoStats]

theorem updateGeoStats_unknown_code (db : DB) (g : Bool) (b : Int) (i : Bool) :
    updateGeoStats db g "Unknown" b i = db := by
  simp [updateGeoStats]

theorem trackCountryCity_none (g : Bool) :
    trackCountryCity g none = ("Unknown", "") := by
  cases g <;> rfl

/-- C9: a connection whose country came out empty or "Unknown" never
touches geo_stats: the upsert skips entirely, creation and Close leave the
geo_stats table exactly as it was, and consequently the sum of geo_stats
connection counts can be strictly below server_stats.total_connections —
as on the concrete run with one tracked connection whose GeoIP lookup
failed. -/
theorem unknown_country_geo_frame :
    (∀ (db : DB) (g : Bool) (b : Int) (i : Bool), updateGeoStats db g "" b i = db) ∧
    (∀ (db : DB) (g : Bool) (b : Int) (i : Bool),
      updateGeoStats db g "Unknown" b i = db) ∧
    (∀ (sc : StatsCollector) (c t : String) (ok : Bool) (now : Int),
      (TrackConnection sc c t none ok now).1.db.geo_stats = sc.db.geo_stats) ∧
    (∀ (sc : StatsCollector) (c t city : String) (ok : Bool) (now : Int),
      (TrackConnection sc c t (some ("", city)) ok now).1.db.geo_stats =
        sc.db.geo_stats) ∧
    (∀ (ct : ConnectionTracker) (sc : StatsCollector) (now : Int),
      ct.country = "" ∨ ct.country = "Unknown" →
      (ct.close sc now).2.db.geo_stats = sc.db.geo_stats) ∧
    (((World.mk (NewStatsCollector ⟨[], 1, none, []⟩ true 30) []).run
        [CoreOp.track "9.9.9.9" "t:443" none true 0]).sc.db.geoConnSum = 0 ∧
     ((World.mk (NewStatsCollector ⟨[], 1, none, []⟩ true 30) []).run
        [CoreOp.track "9.9.9.9" "t:443" none true 0]).sc.db.totalConnections = 1) := by
  refine ⟨updateGeoStats_empty_code, updateGeoStats_unknown_code, ?_, ?_, ?_, by decide, by decide⟩
  · intro sc c t ok now
    cases ok with
    | false => rfl
    | true =>
      simp only [TrackConnection, if_true, trackCountryCity_none]
      rw [updateGeoStats_unknown_code, updateServerStats_geo]
  · intro sc c t city ok now
    cases ok with
    | false => rfl
    | true =>
      cases hg : sc.geoipPresent with
      | true =>
        simp only [TrackConnection, trackCountryCity, hg, if_true]
        rw [updateGeoStats_empty_code, updateServerStats_geo]
      | false =>
        simp only [TrackConnection, trackCountryCity, hg, Bool.false_eq_true, if_false, if_true]
        rw [updateGeoStats_unknown_code, updateServerStats_geo]
  · intro ct sc now hc
    cases h : ct.closed with
    | true => rw [close_of_closed _ _ _ h]
    | false =>
      simp only [ConnectionTracker.close, h, Bool.false_eq_true, if_false]
      rcases hc with hc | hc <;> rw [hc]
      · rw [updateGeoStats_empty_code, updateServerStats_geo, updateConnection_geo]
      · rw [updateGeoStats_unknown_code, updateServerStats_geo, updateConnection_geo]

/-- C9 witness: Close on a tracker with country "Unknown" leaves a concrete
geo_stats table unchanged. -/
theorem unknown_country_geo_frame_witness :
    (ConnectionTracker.close ⟨1, "Unknown", 5, 7, 100, false⟩
      ⟨⟨[⟨1, "9.9.9.9", "t:443", "Unknown", "", 0, 0, 100, none, none⟩], 2,
        some ⟨1, 0, 0⟩, [⟨"US", "United States", 3, 9⟩]⟩, true, 1, 1, [1], 30⟩
      160).2.db.geo_stats =
    (⟨⟨[⟨1, "9.9.9.9", "t:443", "Unknown", "", 0, 0, 100, none, none⟩], 2,
        some ⟨1, 0, 0⟩, [⟨"US", "United States", 3, 9⟩]⟩, true, 1, 1, [1], 30⟩ :
      StatsCollector).db.geo_stats :=
  unknown_country_geo_frame.2.2.2.2.1 ⟨1, "Unknown", 5, 7, 100, false⟩
    ⟨⟨[⟨1, "9.9.9.9", "t:443", "Unknown", "", 0, 0, 100, none, none⟩], 2,
        some ⟨1, 0, 0⟩, [⟨"US", "United States", 3, 9⟩]⟩, true, 1, 1, [1], 30⟩
    160 (Or.inr rfl)

/-- C10: a configured retention_days of zero or below (negatives are
clamped to zero at construction) disables the sweep entirely: the cleanup
loop schedules no sweep at startup or at any later tick, and the collector
is left exactly as constructed. -/
theorem retention_disabled_no_sweep (db : DB) (g : Bool) (rd : Int)
    (hrd : rd ≤ 0) (start : Int) (k : Nat) :
    ((NewStatsCollector db g rd).retentionDays = 0) ∧
    (cleanupTimes (NewStatsCollector db g rd).retentionDays start k = []) ∧
    (runCleanupLoop (NewStatsCollector db g rd) start k =
      NewStatsCollector db g rd) := by
  have h0 : (NewStatsCollector db g rd).retentionDays = 0 := by
    simp only [NewStatsCollector]
    split
    · rfl
    · omega
  refine ⟨h0, ?_, ?_⟩
  · rw [h0]
    simp [cleanupTimes]
  · unfold runCleanupLoop
    rw [h0]
    simp [cleanupTimes]

/-- C10 witness: retention_days -5 is clamped to 0 and three ticker
periods of the loop change nothing. -/
theorem retention_disabled_no_sweep_witness :
    ((NewStatsCollector ⟨[], 1, none, []⟩ true (-5)).retentionDays = 0) ∧
    (cleanupTimes (NewStatsCollector ⟨[], 1, none, []⟩ true (-5)).retentionDays 0 3 = []) ∧
    (runCleanupLoop (NewStatsCollector ⟨[], 1, none, []⟩ true (-5)) 0 3 =
      NewStatsCollector ⟨[], 1, none, []⟩ true (-5)) :=
  retention_disabled_no_sweep ⟨[], 1, none, []⟩ true (-5) (by omega) 0 3

end Proxy
